import Mathlib

/-!
Verification development for the virtual dressing room repository.

The cloth physics, garment geometry, skeleton math and placement logic are
shallowly embedded from `src/lib/garment` (part_003), `src/lib/pose.ts`,
`src/lib/skeleton.ts` and `src/hooks/useGarmentRenderer.ts`; the image
extraction service is embedded from
`supabase/functions/extract-image/index.ts`.  Real-valued float arithmetic is
modelled over `ℝ`; JavaScript strings are modelled as `List Char`.
-/

namespace DressingRoom

open Classical

/-- Three-component vector, modelling `THREE.Vector3`. -/
structure Vec3 where
  x : ℝ
  y : ℝ
  z : ℝ

def Vec3.add (a b : Vec3) : Vec3 := ⟨a.x + b.x, a.y + b.y, a.z + b.z⟩

def Vec3.sub (a b : Vec3) : Vec3 := ⟨a.x - b.x, a.y - b.y, a.z - b.z⟩

def Vec3.smul (r : ℝ) (v : Vec3) : Vec3 := ⟨r * v.x, r * v.y, r * v.z⟩

noncomputable def Vec3.length (v : Vec3) : ℝ :=
  Real.sqrt (v.x ^ 2 + v.y ^ 2 + v.z ^ 2)

/-- `a.distanceTo b` models `THREE.Vector3.distanceTo`. -/
noncomputable def Vec3.distanceTo (a b : Vec3) : ℝ := (Vec3.sub b a).length

/-- Cloth vertex state, from the `ClothVertex` interface. -/
structure ClothVertex where
  position : Vec3
  previousPosition : Vec3
  velocity : Vec3
  pinned : Bool
  mass : ℝ

/-- Spring constraint, from the `SpringConstraint` interface. -/
structure SpringConstraint where
  vertexA : ℕ
  vertexB : ℕ
  restLength : ℝ
  stiffness : ℝ

/-- The mutable state of `SimpleClothPhysics`: the parallel vertex and
constraint arrays. -/
structure ClothState where
  vertices : List ClothVertex
  constraints : List SpringConstraint

/-- `this.gravity = new THREE.Vector3(0, -0.0005, 0)`. -/
noncomputable def gravity : Vec3 := ⟨0, -0.0005, 0⟩

/-- `this.damping = 0.98`. -/
noncomputable def damping : ℝ := 0.98

/-- `this.maxStretch = 1.1`. -/
noncomputable def maxStretch : ℝ := 1.1

/-- `SimpleClothPhysics.pinVertex`: a defensive bound check
(`if (this.vertices[index])`), then `pinned = true` and
`position.copy(position)`. -/
def pinVertex (s : ClothState) (index : ℕ) (position : Vec3) : ClothState :=
  if h : index < s.vertices.length then
    let v := s.vertices.get ⟨index, h⟩
    { s with vertices := s.vertices.set index { v with pinned := true, position := position } }
  else s

/-- `SimpleClothPhysics.unpinVertex`: a defensive bound check, then
`pinned = false`. -/
def unpinVertex (s : ClothState) (index : ℕ) : ClothState :=
  if h : index < s.vertices.length then
    let v := s.vertices.get ⟨index, h⟩
    { s with vertices := s.vertices.set index { v with pinned := false } }
  else s

/-- The Verlet integration step of `update` for one vertex: pinned vertices
are skipped; otherwise
`velocity = (position - previousPosition) * damping`,
`position += velocity`, `position += gravity`,
`previousPosition = old position`. -/
noncomputable def integrateVertex (v : ClothVertex) : ClothVertex :=
  if v.pinned then v
  else
    let temp := v.position
    let vel := Vec3.smul damping (Vec3.sub v.position v.previousPosition)
    { v with
      velocity := vel
      position := Vec3.add (Vec3.add v.position vel) gravity
      previousPosition := temp }

/-- The first loop of `update`: gravity and Verlet integration over all
vertices. -/
noncomputable def integrateAll (s : ClothState) : ClothState :=
  { s with vertices := s.vertices.map integrateVertex }

/-- `if (!vertexA.pinned) vertexA.position.add(correction)`: add the
correction to the position of the vertex at index `j` unless it is pinned. -/
noncomputable def applyCorrectionA (vs : List ClothVertex) (j : ℕ) (correction : Vec3) :
    List ClothVertex :=
  match vs[j]? with
  | some v => if v.pinned then vs else vs.set j { v with position := Vec3.add v.position correction }
  | none => vs

/-- `if (!vertexB.pinned) vertexB.position.sub(correction)`: subtract the
correction from the position of the vertex at index `j` unless it is
pinned.  The vertex is re-read after the first write, which reproduces the
JavaScript object aliasing in case both constraint indices coincide. -/
noncomputable def applyCorrectionB (vs : List ClothVertex) (j : ℕ) (correction : Vec3) :
    List ClothVertex :=
  match vs[j]? with
  | some v => if v.pinned then vs else vs.set j { v with position := Vec3.sub v.position correction }
  | none => vs

/-- One constraint-relaxation step of `update`.  Reads both endpoints,
computes `diff = B.position - A.position` and its length, and when the
length leaves the `[0.9 * rest, maxStretch * rest]` dead-zone applies
`correction = diff * ((distance - restLength) / distance * 0.5 * stiffness)`
to each non-pinned endpoint (`A += correction`, then `B -= correction`).
Out-of-range indices leave the list unchanged (they cannot occur for
mesh-built constraints). -/
noncomputable def relaxConstraint (vs : List ClothVertex) (c : SpringConstraint) :
    List ClothVertex :=
  match vs[c.vertexA]?, vs[c.vertexB]? with
  | some vertexA, some vertexB =>
    let diff := Vec3.sub vertexB.position vertexA.position
    let distance := diff.length
    if distance > c.restLength * maxStretch ∨ distance < c.restLength * 0.9 then
      let correction :=
        Vec3.smul ((distance - c.restLength) / distance * 0.5 * c.stiffness) diff
      applyCorrectionB (applyCorrectionA vs c.vertexA correction) c.vertexB correction
    else vs
  | _, _ => vs

/-- One full relaxation pass of `update`: a fold over the constraint list
in creation order. -/
noncomputable def relaxPass (s : ClothState) : ClothState :=
  { s with vertices := s.constraints.foldl relaxConstraint s.vertices }

/-- `SimpleClothPhysics.update(deltaTime = 1/60)`: integration followed by
the `for (let iter = 0; iter < 3; iter++)` relaxation loop.  The
`deltaTime` argument is never read by the body. -/
noncomputable def update (deltaTime : ℝ) (s : ClothState) : ClothState :=
  let _ := deltaTime
  (List.range 3).foldl (fun st _ => relaxPass st) (integrateAll s)

/-- `SimpleClothPhysics.getVertexCount`. -/
def getVertexCount (s : ClothState) : ℕ := s.vertices.length

/-! ### Garment geometry factory (part_003, `createShirtGeometry`,
`createPantsGeometry`, `createSkirtGeometry`, `createGarmentGeometry`) -/

/-- Garment mesh data: flat position/uv arrays (one entry per vertex) and
the triangle index list of a `THREE.BufferGeometry`. -/
structure GarmentGeometry where
  positions : List Vec3
  uvs : List (ℝ × ℝ)
  indices : List ℕ

/-- Shirt vertex grid: `gridX = 12`, `gridY = 10`, `torsoWidth = 1.2`,
`torsoHeight = 1.0`, with a cosine curvature on z. -/
noncomputable def shirtVertices : List Vec3 :=
  (List.range (10 + 1)).flatMap fun y =>
    (List.range (12 + 1)).map fun (x : ℕ) =>
      let u : ℝ := (x : ℝ) / 12
      let v : ℝ := (y : ℝ) / 10
      ⟨(u - 0.5) * 1.2, (0.5 - v) * 1.0, 0.02 + Real.cos ((u - 0.5) * Real.pi) * 0.05⟩

/-- Shirt UVs: `(u, 1 - v)` in the same loop order. -/
noncomputable def shirtUVs : List (ℝ × ℝ) :=
  (List.range (10 + 1)).flatMap fun y =>
    (List.range (12 + 1)).map fun (x : ℕ) =>
      ((x : ℝ) / 12, 1 - (y : ℝ) / 10)

/-- Shirt triangle indices: for each cell, `(a, c, b)` then `(b, c, d)`
with `a = y * (gridX + 1) + x`, `b = a + 1`, `c = a + (gridX + 1)`,
`d = c + 1`. -/
def shirtIndices : List ℕ :=
  (List.range 10).flatMap fun y =>
    (List.range 12).flatMap fun x =>
      let a := y * (12 + 1) + x
      let b := a + 1
      let c := a + (12 + 1)
      let d := c + 1
      [a, c, b, b, c, d]

noncomputable def createShirtGeometry : GarmentGeometry :=
  ⟨shirtVertices, shirtUVs, shirtIndices⟩

/-- Pants vertex grids: two legs, `gridX = 6`, `gridY = 12`,
`legWidth = 0.35`, `legHeight = 1.0`, `legSpacing = 0.2`, linear taper of
up to 20% toward the hem; the left leg block precedes the right leg
block. -/
noncomputable def pantsVertices : List Vec3 :=
  ((List.range (12 + 1)).flatMap fun y =>
    (List.range (6 + 1)).map fun (x : ℕ) =>
      let u : ℝ := (x : ℝ) / 6
      let v : ℝ := (y : ℝ) / 12
      let taperFactor := 1 - v * 0.2
      ⟨(u - 0.5) * 0.35 * taperFactor - 0.2, (0.5 - v) * 1.0 - 0.2, 0.02⟩) ++
  ((List.range (12 + 1)).flatMap fun y =>
    (List.range (6 + 1)).map fun (x : ℕ) =>
      let u : ℝ := (x : ℝ) / 6
      let v : ℝ := (y : ℝ) / 12
      let taperFactor := 1 - v * 0.2
      ⟨(u - 0.5) * 0.35 * taperFactor + 0.2, (0.5 - v) * 1.0 - 0.2, 0.02⟩)

/-- Pants UVs: the horizontal UV range is split in half between the two
legs. -/
noncomputable def pantsUVs : List (ℝ × ℝ) :=
  ((List.range (12 + 1)).flatMap fun y =>
    (List.range (6 + 1)).map fun (x : ℕ) =>
      ((x : ℝ) / 6 * 0.5, 1 - (y : ℝ) / 12)) ++
  ((List.range (12 + 1)).flatMap fun y =>
    (List.range (6 + 1)).map fun (x : ℕ) =>
      (0.5 + (x : ℝ) / 6 * 0.5, 1 - (y : ℝ) / 12))

/-- Pants triangle indices: both legs share the grid triangulation rule,
the second leg offset by `offset = (gridX + 1) * (gridY + 1) = 91`. -/
def pantsIndices : List ℕ :=
  (List.range 2).flatMap fun leg =>
    (List.range 12).flatMap fun y =>
      (List.range 6).flatMap fun x =>
        let a := leg * ((6 + 1) * (12 + 1)) + y * (6 + 1) + x
        let b := a + 1
        let c := a + (6 + 1)
        let d := c + 1
        [a, c, b, b, c, d]

noncomputable def createPantsGeometry : GarmentGeometry :=
  ⟨pantsVertices, pantsUVs, pantsIndices⟩

/-- Skirt vertex grid: `gridX = 14`, `gridY = 10`, trapezoidal
(`topWidth = 0.6` to `bottomWidth = 1.0`), `height = 0.7`, cosine
curvature on z. -/
noncomputable def skirtVertices : List Vec3 :=
  (List.range (10 + 1)).flatMap fun y =>
    (List.range (14 + 1)).map fun (x : ℕ) =>
      let v : ℝ := (y : ℝ) / 10
      let width := 0.6 + (1.0 - 0.6) * v
      let u : ℝ := (x : ℝ) / 14
      ⟨(u - 0.5) * width, (0.5 - v) * 0.7 - 0.15, 0.02 + Real.cos ((u - 0.5) * Real.pi) * 0.03⟩

noncomputable def skirtUVs : List (ℝ × ℝ) :=
  (List.range (10 + 1)).flatMap fun y =>
    (List.range (14 + 1)).map fun (x : ℕ) =>
      ((x : ℝ) / 14, 1 - (y : ℝ) / 10)

def skirtIndices : List ℕ :=
  (List.range 10).flatMap fun y =>
    (List.range 14).flatMap fun x =>
      let a := y * (14 + 1) + x
      let b := a + 1
      let c := a + (14 + 1)
      let d := c + 1
      [a, c, b, b, c, d]

noncomputable def createSkirtGeometry : GarmentGeometry :=
  ⟨skirtVertices, skirtUVs, skirtIndices⟩

/-- `GarmentType` from `GarmentTypeSelector`: `'shirt' | 'pants' | 'skirt'`. -/
inductive GarmentType where
  | shirt
  | pants
  | skirt
deriving DecidableEq

/-- `createGarmentGeometry`: dispatch on the garment type.  The
JavaScript `default:` arm (returning the shirt geometry) is unreachable
for the three-valued union type. -/
noncomputable def createGarmentGeometry : GarmentType → GarmentGeometry
  | GarmentType.shirt => createShirtGeometry
  | GarmentType.pants => createPantsGeometry
  | GarmentType.skirt => createSkirtGeometry

/-! ### `SimpleClothPhysics.initializeFromGeometry` -/

/-- The vertex array built by `initializeFromGeometry`: one cloth vertex
per geometry position, initially free, with zero velocity and unit mass,
`previousPosition` equal to `position`. -/
noncomputable def verticesFromGeometry (g : GarmentGeometry) : List ClothVertex :=
  g.positions.map fun pos => ⟨pos, pos, ⟨0, 0, 0⟩, false, 1⟩

/-- `addEdge`: deduplicate by the order-normalized index pair and push a
constraint with the current inter-vertex distance as rest length and
stiffness `0.5`.  (Out-of-range indices cannot occur for mesh-built
triangles; the model gives them rest length `0`.) -/
noncomputable def addEdge (vs : List ClothVertex) (a b : ℕ)
    (acc : List SpringConstraint × List (ℕ × ℕ)) :
    List SpringConstraint × List (ℕ × ℕ) :=
  let key := if a < b then (a, b) else (b, a)
  if key ∈ acc.2 then acc
  else
    let restLength :=
      match vs[a]?, vs[b]? with
      | some va, some vb => va.position.distanceTo vb.position
      | _, _ => 0
    (acc.1 ++ [⟨a, b, restLength, 0.5⟩], acc.2 ++ [key])

/-- Group a flat index list into consecutive triangles, as the
`for (i += 3)` loop does. -/
def indexTriples : List ℕ → List (ℕ × ℕ × ℕ)
  | a :: b :: c :: rest => (a, b, c) :: indexTriples rest
  | _ => []

/-- The constraint list built by `initializeFromGeometry`: for each
triangle `(a, b, c)` the edges are added in the order `ab`, `bc`, `ca`. -/
noncomputable def constraintsFromGeometry (g : GarmentGeometry) : List SpringConstraint :=
  let vs := verticesFromGeometry g
  ((indexTriples g.indices).foldl
    (fun acc t => addEdge vs t.2.2 t.1 (addEdge vs t.2.1 t.2.2 (addEdge vs t.1 t.2.1 acc)))
    ([], [])).1

/-- `new SimpleClothPhysics(geometry)`. -/
noncomputable def initializeFromGeometry (g : GarmentGeometry) : ClothState :=
  ⟨verticesFromGeometry g, constraintsFromGeometry g⟩

/-! ### Pose landmarks (`src/lib/pose.ts`) -/

/-- A MediaPipe pose landmark. -/
structure PoseLandmark where
  x : ℝ
  y : ℝ
  z : ℝ
  visibility : Option ℝ

/-- `POSE_LANDMARKS` indices used by `extractSkeleton` and `isPoseValid`. -/
def LEFT_SHOULDER : ℕ := 11
def RIGHT_SHOULDER : ℕ := 12
def LEFT_ELBOW : ℕ := 13
def RIGHT_ELBOW : ℕ := 14
def LEFT_WRIST : ℕ := 15
def RIGHT_WRIST : ℕ := 16
def LEFT_HIP : ℕ := 23
def RIGHT_HIP : ℕ := 24
def LEFT_KNEE : ℕ := 25
def RIGHT_KNEE : ℕ := 26
def LEFT_ANKLE : ℕ := 27
def RIGHT_ANKLE : ℕ := 28

/-- `getMidpoint`: coordinate-wise average, visibility the minimum of the
two (defaulting to 1 when absent). -/
noncomputable def getMidpoint (a b : PoseLandmark) : PoseLandmark :=
  ⟨(a.x + b.x) / 2, (a.y + b.y) / 2, (a.z + b.z) / 2,
    some (min (a.visibility.getD 1) (b.visibility.getD 1))⟩

/-- `getDistance`: Euclidean distance between two landmarks. -/
noncomputable def getDistance (a b : PoseLandmark) : ℝ :=
  Real.sqrt ((a.x - b.x) * (a.x - b.x) + (a.y - b.y) * (a.y - b.y) +
    (a.z - b.z) * (a.z - b.z))

/-- A left/right pair with its computed center (shoulders, hips). -/
structure JointPairCenter where
  left : PoseLandmark
  right : PoseLandmark
  center : PoseLandmark

/-- A plain left/right pair (elbows, wrists, knees, ankles). -/
structure JointPair where
  left : PoseLandmark
  right : PoseLandmark

structure Measurements where
  torsoLength : ℝ
  shoulderWidth : ℝ

/-- The record returned by `extractSkeleton`. -/
structure ExtractedSkeleton where
  shoulders : JointPairCenter
  hips : JointPairCenter
  elbows : JointPair
  wrists : JointPair
  knees : JointPair
  ankles : JointPair
  measurements : Measurements

/-- Landmark array access; the source assumes a full 33-landmark frame
(the default is never used under that assumption). -/
def lmAt (landmarks : List PoseLandmark) (i : ℕ) : PoseLandmark :=
  landmarks.getD i ⟨0, 0, 0, none⟩

/-- `extractSkeleton`. -/
noncomputable def extractSkeleton (landmarks : List PoseLandmark) : ExtractedSkeleton :=
  let leftShoulder := lmAt landmarks LEFT_SHOULDER
  let rightShoulder := lmAt landmarks RIGHT_SHOULDER
  let leftHip := lmAt landmarks LEFT_HIP
  let rightHip := lmAt landmarks RIGHT_HIP
  let shoulderCenter := getMidpoint leftShoulder rightShoulder
  let hipCenter := getMidpoint leftHip rightHip
  { shoulders := ⟨leftShoulder, rightShoulder, shoulderCenter⟩
    hips := ⟨leftHip, rightHip, hipCenter⟩
    elbows := ⟨lmAt landmarks LEFT_ELBOW, lmAt landmarks RIGHT_ELBOW⟩
    wrists := ⟨lmAt landmarks LEFT_WRIST, lmAt landmarks RIGHT_WRIST⟩
    knees := ⟨lmAt landmarks LEFT_KNEE, lmAt landmarks RIGHT_KNEE⟩
    ankles := ⟨lmAt landmarks LEFT_ANKLE, lmAt landmarks RIGHT_ANKLE⟩
    measurements := ⟨getDistance shoulderCenter hipCenter, getDistance leftShoulder rightShoulder⟩ }

/-- `isPoseValid`: the four required landmarks exist and have visibility
above 0.5 (a missing visibility counts as 0). -/
def isPoseValid (landmarks : List PoseLandmark) : Prop :=
  ∀ i ∈ [LEFT_SHOULDER, RIGHT_SHOULDER, LEFT_HIP, RIGHT_HIP],
    match landmarks[i]? with
    | some lm => lm.visibility.getD 0 > 0.5
    | none => False

/-! ### Skeleton builder (`src/lib/skeleton.ts`).  Bone rotations (Euler
angles derived from a quaternion, used for orientation only) are not
consumed by any placement computation and are omitted from the model. -/

/-- `landmarkToVector3`: mirror y, negate depth, apply uniform scale and
aspect correction. -/
noncomputable def landmarkToVector3 (landmark : PoseLandmark) (width height scale : ℝ) :
    Vec3 :=
  ⟨(landmark.x - 0.5) * scale * (width / height), -(landmark.y - 0.5) * scale,
    -landmark.z * scale⟩

/-- A named bone with position and length. -/
structure SkeletonBone where
  name : String
  position : Vec3
  length : ℝ

structure ArmBones where
  shoulder : SkeletonBone
  elbow : SkeletonBone

structure LegBones where
  hip : SkeletonBone
  knee : SkeletonBone

structure Skeleton3D where
  spine : SkeletonBone
  leftArm : ArmBones
  rightArm : ArmBones
  leftLeg : LegBones
  rightLeg : LegBones

/-- `createSkeleton3D`. -/
noncomputable def createSkeleton3D (landmarks : List PoseLandmark)
    (canvasWidth canvasHeight : ℝ) : Skeleton3D :=
  let skeleton := extractSkeleton landmarks
  let scale : ℝ := 2
  let leftShoulderPos := landmarkToVector3 skeleton.shoulders.left canvasWidth canvasHeight scale
  let rightShoulderPos := landmarkToVector3 skeleton.shoulders.right canvasWidth canvasHeight scale
  let leftHipPos := landmarkToVector3 skeleton.hips.left canvasWidth canvasHeight scale
  let rightHipPos := landmarkToVector3 skeleton.hips.right canvasWidth canvasHeight scale
  let leftElbowPos := landmarkToVector3 skeleton.elbows.left canvasWidth canvasHeight scale
  let rightElbowPos := landmarkToVector3 skeleton.elbows.right canvasWidth canvasHeight scale
  let leftWristPos := landmarkToVector3 skeleton.wrists.left canvasWidth canvasHeight scale
  let rightWristPos := landmarkToVector3 skeleton.wrists.right canvasWidth canvasHeight scale
  let leftKneePos := landmarkToVector3 skeleton.knees.left canvasWidth canvasHeight scale
  let rightKneePos := landmarkToVector3 skeleton.knees.right canvasWidth canvasHeight scale
  let leftAnklePos := landmarkToVector3 skeleton.ankles.left canvasWidth canvasHeight scale
  let rightAnklePos := landmarkToVector3 skeleton.ankles.right canvasWidth canvasHeight scale
  let shoulderCenter := Vec3.smul 0.5 (Vec3.add leftShoulderPos rightShoulderPos)
  let hipCenter := Vec3.smul 0.5 (Vec3.add leftHipPos rightHipPos)
  { spine := ⟨"spine", shoulderCenter, shoulderCenter.distanceTo hipCenter⟩
    leftArm := ⟨⟨"leftShoulder", leftShoulderPos, leftShoulderPos.distanceTo leftElbowPos⟩,
                ⟨"leftElbow", leftElbowPos, leftElbowPos.distanceTo leftWristPos⟩⟩
    rightArm := ⟨⟨"rightShoulder", rightShoulderPos, rightShoulderPos.distanceTo rightElbowPos⟩,
                 ⟨"rightElbow", rightElbowPos, rightElbowPos.distanceTo rightWristPos⟩⟩
    leftLeg := ⟨⟨"leftHip", leftHipPos, leftHipPos.distanceTo leftKneePos⟩,
                ⟨"leftKnee", leftKneePos, leftKneePos.distanceTo leftAnklePos⟩⟩
    rightLeg := ⟨⟨"rightHip", rightHipPos, rightHipPos.distanceTo rightKneePos⟩,
                 ⟨"rightKnee", rightKneePos, rightKneePos.distanceTo rightAnklePos⟩⟩ }

/-! ### Placement engine (`useGarmentRenderer.updateFromSkeleton`) -/

/-- `gridWidth = garmentType === shirt ? 13 : (pants ? 7 : 15)`. -/
def placementGridWidth : GarmentType → ℕ
  | GarmentType.shirt => 13
  | GarmentType.pants => 7
  | GarmentType.skirt => 15

/-- The outcome of one `updateFromSkeleton` call for the garment mesh:
mesh position, mesh scale, and the `pinVertex` calls issued (index and
pin position, in loop order). -/
structure GarmentPlacement where
  position : Vec3
  scale : Vec3
  pins : List (ℕ × Vec3)

/-- The pants branch of `updateFromSkeleton`: position at the hip center
lowered by 0.12 with z forced to 0.1, scale from hip width and the
doubled-thigh leg-length estimate, and the top `min 7 vertexCount`
vertices pinned along the hip line (x interpolated, y from the left hip,
z from the mesh position). -/
noncomputable def updatePantsFromSkeleton (skeleton : Skeleton3D) (vertexCount : ℕ) :
    GarmentPlacement :=
  let hipCenter := Vec3.smul 0.5
    (Vec3.add skeleton.leftLeg.hip.position skeleton.rightLeg.hip.position)
  let leftThigh := skeleton.leftLeg.hip.position.distanceTo skeleton.leftLeg.knee.position
  let rightThigh := skeleton.rightLeg.hip.position.distanceTo skeleton.rightLeg.knee.position
  let legLength := max leftThigh rightThigh * 2
  let position : Vec3 := ⟨hipCenter.x, hipCenter.y - 0.12, 0.1⟩
  let hipDist := skeleton.leftLeg.hip.position.distanceTo skeleton.rightLeg.hip.position
  let scale : Vec3 := ⟨hipDist * 2.0, legLength * 1.25, 1⟩
  let gridWidth := placementGridWidth GarmentType.pants
  let pins : List (ℕ × Vec3) := (List.range (min gridWidth vertexCount)).map fun (i : ℕ) =>
    let t : ℝ := (i : ℝ) / ((gridWidth : ℝ) - 1)
    (i, (⟨skeleton.leftLeg.hip.position.x * (1 - t) + skeleton.rightLeg.hip.position.x * t,
          skeleton.leftLeg.hip.position.y, position.z⟩ : Vec3))
  ⟨position, scale, pins⟩

/-! ### Image extraction service
(`supabase/functions/extract-image/index.ts`).  JavaScript strings are
modelled as `List Char`. -/

/-- JS whitespace for the regex class backslash-s and for `trim`, in the
ASCII range: space, tab, LF, VT, FF, CR. -/
def isSpaceChar (c : Char) : Bool :=
  c.toNat == 32 || c.toNat == 9 || c.toNat == 10 || c.toNat == 11 ||
  c.toNat == 12 || c.toNat == 13

/-- The double or single quote characters matched by the quote class of
the meta-tag regular expressions. -/
def isQuoteChar (c : Char) : Bool := c.toNat == 34 || c.toNat == 39

def lowerStr (s : List Char) : List Char := s.map Char.toLower

/-- Substring test, modelling `String.prototype.includes`. -/
def containsSub (pat s : List Char) : Bool :=
  s.tails.any fun t => pat.isPrefixOf t

/-- The image-extension test `\.(jpg|jpeg|png|gif|webp|avif)(\?.*)?$`
with the `i` flag: the lowercased string ends with a dot-extension, or
contains a dot-extension immediately followed by a query separator. -/
def matchesImageExtension (s : List Char) : Bool :=
  (["jpg", "jpeg", "png", "gif", "webp", "avif"].map String.data).any fun ext =>
    ('.' :: ext).isSuffixOf (lowerStr s) || containsSub ('.' :: (ext ++ ['?'])) (lowerStr s)

/-- `invalidPatterns` of `isValidImageUrl` (matched case-sensitively by
`includes`). -/
def invalidPatterns : List (List Char) :=
  ["<", ">", "\x7b", "\x7d", "background-image", "url(", "</style",
   "<script", ".nav-sprite", ".css", "sprite"].map String.data

/-- `validPatterns` of `isValidImageUrl`: image extension, or one of the
known CDN substring patterns (all case-insensitive). -/
def matchesValidPattern (s : List Char) : Bool :=
  matchesImageExtension s ||
  containsSub "images.".data (lowerStr s) ||
  containsSub ".media-amazon.com".data (lowerStr s) ||
  containsSub "cdn.".data (lowerStr s) ||
  containsSub ".cloudinary.com".data (lowerStr s) ||
  containsSub ".imgix.net".data (lowerStr s)

/-- `isValidImageUrl` (the null/typeof guard is vacuous for a string
input): requires an http, https or protocol-relative prefix, no
HTML/CSS artifact substring, and a valid image/CDN pattern. -/
def isValidImageUrl (urlString : List Char) : Bool :=
  if !("http://".data.isPrefixOf urlString || "https://".data.isPrefixOf urlString ||
      "//".data.isPrefixOf urlString) then false
  else if invalidPatterns.any (fun p => containsSub p urlString) then false
  else matchesValidPattern urlString

/-- Tokens of the meta-tag regular expressions used by the handler: a
case-insensitive literal, a one-or-more character class, or a quote. -/
inductive RTok where
  | lit : List Char → RTok
  | cls : (Char → Bool) → RTok
  | quo : RTok

/-- Case-insensitive prefix test for regex literals under the `i` flag. -/
def ciPrefix : List Char → List Char → Bool
  | [], _ => true
  | _ :: _, [] => false
  | p :: ps, c :: cs => (p.toLower == c.toLower) && ciPrefix ps cs

/-- All remainders after consuming one-or-more characters of a class,
longest consumption first (greedy order). -/
def consumePlus (p : Char → Bool) : List Char → List (List Char)
  | [] => []
  | c :: cs => if p c then consumePlus p cs ++ [cs] else []

/-- Match a token list against a prefix of the input; returns the
possible remainders in backtracking order. -/
def mPre : List RTok → List Char → List (List Char)
  | [], cs => [cs]
  | RTok.lit l :: ts, cs => if ciPrefix l cs then mPre ts (cs.drop l.length) else []
  | RTok.quo :: _, [] => []
  | RTok.quo :: ts, c :: cs => if isQuoteChar c then mPre ts cs else []
  | RTok.cls p :: ts, cs => (consumePlus p cs).flatMap (mPre ts)

/-- All splits of the capture group (one-or-more characters that are not
quotes) and the remainder, longest capture first (greedy order). -/
def capSplits : List Char → List (List Char × List Char)
  | [] => []
  | c :: cs =>
    if isQuoteChar c then []
    else ((capSplits cs).map fun pr => (c :: pr.1, pr.2)) ++ [([c], cs)]

/-- Match a pattern `pre ([^quotes]+) post` anchored at the start of
`cs`, returning the first capture in backtracking order. -/
def matchAtPos (pre post : List RTok) (cs : List Char) : Option (List Char) :=
  (mPre pre cs).findSome? fun r =>
    (capSplits r).findSome? fun pr =>
      if (mPre post pr.2).isEmpty then none else some pr.1

/-- Leftmost match: scan start positions left to right, as
`String.prototype.match` does for a non-global regex. -/
def findCapture (pre post : List RTok) : List Char → Option (List Char)
  | [] => matchAtPos pre post []
  | c :: cs => (matchAtPos pre post (c :: cs)).orElse fun _ => findCapture pre post cs

/-- A meta-tag pattern with a single capture group. -/
structure MetaPattern where
  pre : List RTok
  post : List RTok

/-- The first pattern of the handler: the property-first Open Graph
image meta tag. -/
def ogImagePattern : MetaPattern :=
  ⟨[RTok.lit "<meta".data, RTok.cls isSpaceChar, RTok.lit "property=".data, RTok.quo,
    RTok.lit "og:image".data, RTok.quo, RTok.cls isSpaceChar, RTok.lit "content=".data,
    RTok.quo], [RTok.quo]⟩

/-- The eight `imagePatterns` of the handler, in source order: Open Graph
(both attribute orders), Twitter (both attribute orders), the two Amazon
id patterns, and the two lazy-load data attributes. -/
def imagePatterns : List MetaPattern :=
  ogImagePattern ::
  [⟨[RTok.lit "<meta".data, RTok.cls isSpaceChar, RTok.lit "content=".data, RTok.quo],
    [RTok.quo, RTok.cls isSpaceChar, RTok.lit "property=".data, RTok.quo,
     RTok.lit "og:image".data, RTok.quo]⟩,
   ⟨[RTok.lit "<meta".data, RTok.cls isSpaceChar, RTok.lit "name=".data, RTok.quo,
     RTok.lit "twitter:image".data, RTok.quo, RTok.cls isSpaceChar, RTok.lit "content=".data,
     RTok.quo], [RTok.quo]⟩,
   ⟨[RTok.lit "<meta".data, RTok.cls isSpaceChar, RTok.lit "content=".data, RTok.quo],
    [RTok.quo, RTok.cls isSpaceChar, RTok.lit "name=".data, RTok.quo,
     RTok.lit "twitter:image".data, RTok.quo]⟩,
   ⟨[RTok.lit "id=".data, RTok.quo, RTok.lit "landingImage".data, RTok.quo,
     RTok.cls (fun c => !(c.toNat == 62)), RTok.lit "src=".data, RTok.quo], [RTok.quo]⟩,
   ⟨[RTok.lit "id=".data, RTok.quo, RTok.lit "imgBlkFront".data, RTok.quo,
     RTok.cls (fun c => !(c.toNat == 62)), RTok.lit "src=".data, RTok.quo], [RTok.quo]⟩,
   ⟨[RTok.lit "data-old-hires=".data, RTok.quo], [RTok.quo]⟩,
   ⟨[RTok.lit "data-a-dynamic-image=".data, RTok.quo, RTok.lit "\x7b".data, RTok.quo],
    [RTok.quo]⟩]

/-- `html.match(pattern)` followed by taking `match[1]`. -/
def runPattern (p : MetaPattern) (html : List Char) : Option (List Char) :=
  findCapture p.pre p.post html

/-- `String.prototype.trim`. -/
def trimL (s : List Char) : List Char :=
  ((s.dropWhile isSpaceChar).reverse.dropWhile isSpaceChar).reverse

/-- Models `new URL(url).origin` for well-formed absolute http(s) URLs:
the scheme plus the authority up to the first slash, query or fragment
(default-port normalization is not modelled; the handler only reaches
this for the fetched page URL). -/
def urlOrigin (url : List Char) : List Char :=
  if "https://".data.isPrefixOf url then
    "https://".data ++
      (url.drop 8).takeWhile fun c => !(c.toNat == 47 || c.toNat == 63 || c.toNat == 35)
  else if "http://".data.isPrefixOf url then
    "http://".data ++
      (url.drop 7).takeWhile fun c => !(c.toNat == 47 || c.toNat == 63 || c.toNat == 35)
  else url

/-- The relative-URL handling of the candidate loop: protocol-relative
URLs get the https scheme, root-relative URLs are resolved against the
page origin, anything else is kept as is. -/
def resolveCandidate (url candidateUrl : List Char) : List Char :=
  if "//".data.isPrefixOf candidateUrl then "https:".data ++ candidateUrl
  else if "/".data.isPrefixOf candidateUrl then urlOrigin url ++ candidateUrl
  else candidateUrl

/-- One iteration body of the candidate loop: trim the capture, pre-validate,
resolve, and accept only when the final validation passes; `none` means
`continue` to the next pattern. -/
def tryCandidate (url raw : List Char) : Option (List Char) :=
  let candidateUrl := trimL raw
  if isValidImageUrl candidateUrl then
    let resolved := resolveCandidate url candidateUrl
    if isValidImageUrl resolved then some resolved else none
  else none

/-- The meta-pattern loop: the first pattern whose candidate survives
validation and resolution wins. -/
def pickFromPatterns (url html : List Char) : Option (List Char) :=
  imagePatterns.findSome? fun p => (runPattern p html).bind (tryCandidate url)

/-- Whether the handler enters the JSON-LD fallback branch: the guard is
`imageUrl === url` after the meta-pattern loop. -/
def consultsJsonLd (url html : List Char) : Bool :=
  (pickFromPatterns url html).getD url == url

/-- The image URL the handler finally fetches (for a non-direct-image
request whose page fetch succeeded).  The JSON-LD fallback runs only
when the meta-pattern phase left `imageUrl` equal to the page URL; its
internals (script-block matching and JSON parsing) are abstracted by the
`jsonLd` parameter, which returns the first image URL extracted from a
ld+json block that passes `isValidImageUrl`, if any. -/
def finalImageUrl (jsonLd : List Char → Option (List Char)) (url html : List Char) :
    List Char :=
  let imageUrl := (pickFromPatterns url html).getD url
  if imageUrl == url then
    match jsonLd html with
    | some extracted => extracted
    | none => imageUrl
  else imageUrl

/-- The direct-image test applied to the request URL before any page
fetch. -/
def isDirectImage (url : List Char) : Bool := matchesImageExtension url

/-- The base64 alphabet used by `btoa`. -/
def base64Chars : List Char :=
  "ABCDEFGHIJKLMNOPQRSTUVWXYZabcdefghijklmnopqrstuvwxyz0123456789+/".data

def base64Char (n : ℕ) : Char := base64Chars.getD n (Char.ofNat 65)

/-- `btoa` applied to the byte string assembled from the image buffer
(one character per byte); 61 is the padding character. -/
def base64Encode : List ℕ → List Char
  | [] => []
  | [b1] => [base64Char (b1 / 4), base64Char (b1 % 4 * 16), Char.ofNat 61, Char.ofNat 61]
  | [b1, b2] => [base64Char (b1 / 4), base64Char (b1 % 4 * 16 + b2 / 16),
      base64Char (b2 % 16 * 4), Char.ofNat 61]
  | b1 :: b2 :: b3 :: rest =>
    [base64Char (b1 / 4), base64Char (b1 % 4 * 16 + b2 / 16),
     base64Char (b2 % 16 * 4 + b3 / 64), base64Char (b3 % 64)] ++ base64Encode rest

/-- `contentType = imageResponse.headers.get(...) || image/jpeg`: a
missing header or an empty string falls back to the default. -/
def contentTypeOrDefault (h : Option (List Char)) : List Char :=
  match h with
  | some s => if s.isEmpty then "image/jpeg".data else s
  | none => "image/jpeg".data

/-- The successful response body: `data:contentType;base64,` followed by
the encoded bytes. -/
def buildDataUrl (contentType : List Char) (bytes : List ℕ) : List Char :=
  "data:".data ++ contentType ++ (";base64,".data ++ base64Encode bytes)

/-- Witness state for the relaxation theorems: two free unit-mass
vertices one unit apart. -/
noncomputable def wVertexA : ClothVertex := ⟨⟨0, 0, 0⟩, ⟨0, 0, 0⟩, ⟨0, 0, 0⟩, false, 1⟩

noncomputable def wVertexB : ClothVertex := ⟨⟨1, 0, 0⟩, ⟨1, 0, 0⟩, ⟨0, 0, 0⟩, false, 1⟩

noncomputable def wState : ClothState := ⟨[wVertexA, wVertexB], [⟨0, 1, 1, 0.5⟩]⟩

/-- One-vertex, no-constraint state for the unpin counterexample. -/
noncomputable def wUnpinState : ClothState :=
  ⟨[⟨⟨0, 0, 0⟩, ⟨0, 0, 0⟩, ⟨0, 0, 0⟩, false, 1⟩], []⟩

/-- Witness landmark frame: 33 copies of one fully visible landmark. -/
noncomputable def wLm : PoseLandmark := ⟨0.25, 0.5, 0.125, some 1⟩

noncomputable def wLms : List PoseLandmark := List.replicate 33 wLm

/-- Witness skeleton for the placement theorem. -/
noncomputable def wSkeleton : Skeleton3D :=
  { spine := ⟨"spine", ⟨0, 1, 0⟩, 1⟩
    leftArm := ⟨⟨"leftShoulder", ⟨-1, 1, 0⟩, 1⟩, ⟨"leftElbow", ⟨-1, 0, 0⟩, 1⟩⟩
    rightArm := ⟨⟨"rightShoulder", ⟨1, 1, 0⟩, 1⟩, ⟨"rightElbow", ⟨1, 0, 0⟩, 1⟩⟩
    leftLeg := ⟨⟨"leftHip", ⟨-1, 0, 0⟩, 1⟩, ⟨"leftKnee", ⟨-1, -1, 0⟩, 1⟩⟩
    rightLeg := ⟨⟨"rightHip", ⟨1, 0, 0⟩, 1⟩, ⟨"rightKnee", ⟨1, -1, 0⟩, 1⟩⟩ }

/-- Vertex `i` is pinned and sits exactly at `p`. -/
def PinnedAt (vs : List ClothVertex) (i : ℕ) (p : Vec3) : Prop :=
  ∃ v, vs[i]? = some v ∧ v.pinned = true ∧ v.position = p

lemma PinnedAt.set_unpinned {vs : List ClothVertex} {i : ℕ} {p : Vec3} {j : ℕ}
    {w' : ClothVertex} (h : PinnedAt vs i p)
    (hw : ∃ w, vs[j]? = some w ∧ w.pinned = false) :
    PinnedAt (vs.set j w') i p := by
  obtain ⟨v, hv, hvp, hvpos⟩ := h
  obtain ⟨w, hwj, hwp⟩ := hw
  have hij : i ≠ j := by
    rintro rfl
    rw [hv] at hwj
    cases hwj
    rw [hvp] at hwp
    cases hwp
  exact ⟨v, by rw [List.getElem?_set_ne hij.symm]; exact hv, hvp, hvpos⟩

lemma PinnedAt.applyCorrectionA {vs : List ClothVertex} {i : ℕ} {p : Vec3}
    (h : PinnedAt vs i p) (j : ℕ) (corr : Vec3) :
    PinnedAt (applyCorrectionA vs j corr) i p := by
  unfold DressingRoom.applyCorrectionA
  cases hj : vs[j]? with
  | none => exact h
  | some w =>
    simp only
    split
    · exact h
    · exact h.set_unpinned ⟨w, hj, by simp_all⟩

lemma PinnedAt.applyCorrectionB {vs : List ClothVertex} {i : ℕ} {p : Vec3}
    (h : PinnedAt vs i p) (j : ℕ) (corr : Vec3) :
    PinnedAt (applyCorrectionB vs j corr) i p := by
  unfold DressingRoom.applyCorrectionB
  cases hj : vs[j]? with
  | none => exact h
  | some w =>
    simp only
    split
    · exact h
    · exact h.set_unpinned ⟨w, hj, by simp_all⟩

lemma PinnedAt.relaxConstraint {vs : List ClothVertex} {c : SpringConstraint} {i : ℕ}
    {p : Vec3} (h : PinnedAt vs i p) : PinnedAt (relaxConstraint vs c) i p := by
  unfold DressingRoom.relaxConstraint
  cases hA : vs[c.vertexA]? with
  | none => simpa [hA] using h
  | some vertexA =>
    cases hB : vs[c.vertexB]? with
    | none => simpa [hA, hB] using h
    | some vertexB =>
      simp only [hA, hB]
      split
      · exact (h.applyCorrectionA c.vertexA _).applyCorrectionB c.vertexB _
      · exact h

lemma PinnedAt.foldl_relax {cs : List SpringConstraint} {vs : List ClothVertex} {i : ℕ}
    {p : Vec3} (h : PinnedAt vs i p) :
    PinnedAt (cs.foldl DressingRoom.relaxConstraint vs) i p := by
  induction cs generalizing vs with
  | nil => simpa using h
  | cons c cs ih => exact ih h.relaxConstraint

lemma PinnedAt.integrateAll {s : ClothState} {i : ℕ} {p : Vec3}
    (h : PinnedAt s.vertices i p) : PinnedAt (integrateAll s).vertices i p := by
  obtain ⟨v, hv, hvp, hvpos⟩ := h
  refine ⟨v, ?_, hvp, hvpos⟩
  simp only [DressingRoom.integrateAll, List.getElem?_map, hv, Option.map_some']
  simp [integrateVertex, hvp]

lemma PinnedAt.update {s : ClothState} {i : ℕ} {p : Vec3} (dt : ℝ)
    (h : PinnedAt s.vertices i p) : PinnedAt (update dt s).vertices i p := by
  unfold DressingRoom.update
  simp only [List.range_succ, List.foldl_append, List.foldl_cons, List.foldl_nil,
    List.range_zero]
  exact (((h.integrateAll).foldl_relax).foldl_relax).foldl_relax

lemma PinnedAt.pinVertex {s : ClothState} {i : ℕ} (p : Vec3)
    (h : i < s.vertices.length) : PinnedAt (pinVertex s i p).vertices i p := by
  unfold DressingRoom.pinVertex
  rw [dif_pos h]
  exact ⟨_, List.getElem?_set_self (by simpa using h), rfl, rfl⟩

/-- C1: for every cloth state and every in-range vertex index `i`, after
`pinVertex(i, p)` any sequence of `update` calls (with arbitrary
`deltaTime` arguments) leaves vertex `i` pinned with position exactly `p`:
it is skipped by gravity/integration and never moved by constraint
correction. -/
theorem c1_pin_invariant (s : ClothState) (i : ℕ) (p : Vec3)
    (h : i < s.vertices.length) (dts : List ℝ) :
    ∃ v, ((dts.foldl (fun st dt => update dt st) (pinVertex s i p)).vertices)[i]? = some v ∧
      v.pinned = true ∧ v.position = p := by
  have inv : PinnedAt (pinVertex s i p).vertices i p := PinnedAt.pinVertex p h
  have : ∀ (l : List ℝ) (st : ClothState), PinnedAt st.vertices i p →
      PinnedAt ((l.foldl (fun st dt => update dt st) st)).vertices i p := by
    intro l
    induction l with
    | nil => intro st hst; simpa using hst
    | cons dt l ih => intro st hst; exact ih _ (hst.update dt)
  obtain ⟨v, hv, hvp, hvpos⟩ := this dts _ inv
  exact ⟨v, hv, hvp, hvpos⟩

/-- Witness for C1 at a concrete two-vertex, one-constraint state. -/
theorem c1_pin_invariant_witness :
    (0 < (ClothState.mk
      [⟨⟨0, 0, 0⟩, ⟨0, 0, 0⟩, ⟨0, 0, 0⟩, false, 1⟩,
       ⟨⟨1, 0, 0⟩, ⟨1, 0, 0⟩, ⟨0, 0, 0⟩, false, 1⟩]
      [⟨0, 1, 1, 0.5⟩]).vertices.length) ∧
    ∃ v, ((([1/60, 1/60, 1/60] : List ℝ).foldl (fun st dt => update dt st)
        (pinVertex (ClothState.mk
          [⟨⟨0, 0, 0⟩, ⟨0, 0, 0⟩, ⟨0, 0, 0⟩, false, 1⟩,
           ⟨⟨1, 0, 0⟩, ⟨1, 0, 0⟩, ⟨0, 0, 0⟩, false, 1⟩]
          [⟨0, 1, 1, 0.5⟩]) 0 ⟨2, 3, 4⟩)).vertices)[0]? = some v ∧
      v.pinned = true ∧ v.position = ⟨2, 3, 4⟩ :=
  ⟨by simp, c1_pin_invariant _ 0 ⟨2, 3, 4⟩ (by simp) [1/60, 1/60, 1/60]⟩

/-- Every constraint pushed by `addEdge` carries stiffness `0.5`. -/
lemma addEdge_stiffness {vs : List ClothVertex} {a b : ℕ}
    {acc : List SpringConstraint × List (ℕ × ℕ)}
    (h : ∀ c ∈ acc.1, c.stiffness = 0.5) :
    ∀ c ∈ (addEdge vs a b acc).1, c.stiffness = 0.5 := by
  unfold DressingRoom.addEdge
  dsimp only
  split <;> split <;>
    first
      | exact h
      | (intro c hc
         simp only [List.mem_append, List.mem_singleton] at hc
         rcases hc with hc | rfl
         · exact h c hc
         · rfl)

/-- Every constraint created by `initializeFromGeometry` has stiffness
`0.5`: the justification for the stiffness hypothesis of the relaxation
theorems. -/
lemma constraintsFromGeometry_stiffness (g : GarmentGeometry) :
    ∀ c ∈ (initializeFromGeometry g).constraints, c.stiffness = 0.5 := by
  show ∀ c ∈ (constraintsFromGeometry g), c.stiffness = 0.5
  unfold constraintsFromGeometry
  generalize indexTriples g.indices = ts
  have main : ∀ (acc : List SpringConstraint × List (ℕ × ℕ)),
      (∀ c ∈ acc.1, c.stiffness = 0.5) →
      ∀ c ∈ (ts.foldl (fun acc t =>
          addEdge (verticesFromGeometry g) t.2.2 t.1
            (addEdge (verticesFromGeometry g) t.2.1 t.2.2
              (addEdge (verticesFromGeometry g) t.1 t.2.1 acc))) acc).1,
        c.stiffness = 0.5 := by
    induction ts with
    | nil => intro acc h; simpa using h
    | cons t ts ih =>
      intro acc h
      exact ih _ (addEdge_stiffness (addEdge_stiffness (addEdge_stiffness h)))
  exact main ([], []) (by simp)

/-- `applyCorrectionA` in terms of the endpoint it reads. -/
lemma applyCorrectionA_updates {vs : List ClothVertex} {j : ℕ} {v : ClothVertex}
    (hj : vs[j]? = some v) (corr : Vec3) :
    applyCorrectionA vs j corr =
      if v.pinned then vs else vs.set j { v with position := Vec3.add v.position corr } := by
  unfold DressingRoom.applyCorrectionA
  simp only [hj]

/-- `applyCorrectionB` in terms of the endpoint it reads. -/
lemma applyCorrectionB_updates {vs : List ClothVertex} {j : ℕ} {v : ClothVertex}
    (hj : vs[j]? = some v) (corr : Vec3) :
    applyCorrectionB vs j corr =
      if v.pinned then vs else vs.set j { v with position := Vec3.sub v.position corr } := by
  unfold DressingRoom.applyCorrectionB
  simp only [hj]

/-- `applyCorrectionB` after a write at a different index. -/
lemma applyCorrectionB_set_ne {vs : List ClothVertex} {a b : ℕ} (hne : a ≠ b)
    {vB : ClothVertex} (hB : vs[b]? = some vB) (w : ClothVertex) (corr : Vec3) :
    applyCorrectionB (vs.set a w) b corr =
      if vB.pinned then vs.set a w
      else (vs.set a w).set b { vB with position := Vec3.sub vB.position corr } :=
  applyCorrectionB_updates (by rw [List.getElem?_set_ne hne]; exact hB) corr

/-- C2: each `update` call runs exactly 3 relaxation passes over the
constraint list in creation order; within a pass a constraint is
corrected only when its current length exceeds 110 percent or falls
below 90 percent of the rest length, and then each non-pinned endpoint
moves along the separation vector by half the length error scaled by the
stiffness 0.5 (endpoint A toward B, endpoint B toward A by the same
amount), while pinned endpoints never move. -/
theorem c2_relaxation_passes :
    (∀ (dt : ℝ) (s : ClothState), update dt s = relaxPass^[3] (integrateAll s)) ∧
    (∀ (vs : List ClothVertex) (c : SpringConstraint) (vA vB : ClothVertex),
      vs[c.vertexA]? = some vA → vs[c.vertexB]? = some vB →
      c.restLength * 0.9 ≤ vA.position.distanceTo vB.position →
      vA.position.distanceTo vB.position ≤ c.restLength * 1.1 →
      relaxConstraint vs c = vs) ∧
    (∀ (vs : List ClothVertex) (c : SpringConstraint) (vA vB : ClothVertex),
      vs[c.vertexA]? = some vA → vs[c.vertexB]? = some vB →
      c.vertexA ≠ c.vertexB → c.stiffness = 0.5 →
      (vA.position.distanceTo vB.position > c.restLength * 1.1 ∨
       vA.position.distanceTo vB.position < c.restLength * 0.9) →
      relaxConstraint vs c =
        (let d := vA.position.distanceTo vB.position
         let correction := Vec3.smul ((d - c.restLength) * 0.5 * 0.5 / d)
           (Vec3.sub vB.position vA.position)
         let vs1 := if vA.pinned then vs
           else vs.set c.vertexA { vA with position := Vec3.add vA.position correction }
         if vB.pinned then vs1
         else vs1.set c.vertexB { vB with position := Vec3.sub vB.position correction })) := by
  refine ⟨?_, ?_, ?_⟩
  · intro dt s
    unfold DressingRoom.update
    simp [List.range_succ, Function.iterate_succ_apply']
  · intro vs c vA vB hA hB hlow hhigh
    simp only [Vec3.distanceTo] at hlow hhigh
    unfold DressingRoom.relaxConstraint
    simp only [hA, hB]
    rw [if_neg]
    rintro (hgt | hlt)
    · simp only [maxStretch] at hgt
      linarith
    · linarith
  · intro vs c vA vB hA hB hne hstiff hguard
    simp only [Vec3.distanceTo] at hguard ⊢
    unfold DressingRoom.relaxConstraint
    simp only [hA, hB]
    rw [if_pos (by simpa only [maxStretch] using hguard)]
    have hscal : ((Vec3.sub vB.position vA.position).length - c.restLength) /
          (Vec3.sub vB.position vA.position).length * 0.5 * c.stiffness =
        ((Vec3.sub vB.position vA.position).length - c.restLength) * 0.5 * 0.5 /
          (Vec3.sub vB.position vA.position).length := by
      rw [hstiff]; ring
    rw [hscal]
    rw [applyCorrectionA_updates hA]
    cases hpA : vA.pinned with
    | true =>
      simp only [if_true]
      rw [applyCorrectionB_updates hB]
    | false =>
      simp only [Bool.false_eq_true, if_false]
      rw [applyCorrectionB_set_ne hne hB]

/-- Witness for C2: the dead-zone case at rest length 1 (distance 1) and
the stretched case at rest length 0.5 (distance 1), on the concrete
two-vertex state. -/
theorem c2_relaxation_passes_witness :
    (update 1 wState = relaxPass^[3] (integrateAll wState)) ∧
    (relaxConstraint [wVertexA, wVertexB] ⟨0, 1, 1, 0.5⟩ = [wVertexA, wVertexB]) ∧
    (relaxConstraint [wVertexA, wVertexB] ⟨0, 1, 0.5, 0.5⟩ =
      (let d := wVertexA.position.distanceTo wVertexB.position
       let correction := Vec3.smul ((d - (0.5 : ℝ)) * 0.5 * 0.5 / d)
         (Vec3.sub wVertexB.position wVertexA.position)
       let vs1 := if wVertexA.pinned then [wVertexA, wVertexB]
         else [wVertexA, wVertexB].set 0
           { wVertexA with position := Vec3.add wVertexA.position correction }
       if wVertexB.pinned then vs1
       else vs1.set 1 { wVertexB with position := Vec3.sub wVertexB.position correction })) := by
  have hdist : wVertexA.position.distanceTo wVertexB.position = 1 := by
    simp [wVertexA, wVertexB, Vec3.distanceTo, Vec3.sub, Vec3.length]
  refine ⟨c2_relaxation_passes.1 1 wState, ?_, ?_⟩
  · exact c2_relaxation_passes.2.1 [wVertexA, wVertexB] ⟨0, 1, 1, 0.5⟩ wVertexA wVertexB
      rfl rfl (by rw [hdist]; norm_num) (by rw [hdist]; norm_num)
  · exact c2_relaxation_passes.2.2 [wVertexA, wVertexB] ⟨0, 1, 0.5, 0.5⟩ wVertexA wVertexB
      rfl rfl (by decide) rfl (Or.inl (by rw [hdist]; norm_num))

/-- C3: the integration phase updates every free vertex by exactly
`velocity = (position - previousPosition) * 0.98`,
`previousPosition = old position`,
`position = old position + velocity + (0, -0.0005, 0)`, leaving pinned
vertices and all masses untouched; `update` does not scale by its
`deltaTime` argument. -/
theorem c3_integration_phase :
    (∀ v : ClothVertex, v.pinned = false →
      integrateVertex v =
        ⟨Vec3.add (Vec3.add v.position (Vec3.smul 0.98 (Vec3.sub v.position v.previousPosition)))
           ⟨0, -0.0005, 0⟩,
         v.position,
         Vec3.smul 0.98 (Vec3.sub v.position v.previousPosition),
         false, v.mass⟩) ∧
    (∀ v : ClothVertex, v.pinned = true → integrateVertex v = v) ∧
    (∀ (dt : ℝ) (s : ClothState), update dt s = relaxPass^[3] (integrateAll s)) ∧
    (∀ (dt₁ dt₂ : ℝ) (s : ClothState), update dt₁ s = update dt₂ s) := by
  refine ⟨?_, ?_, ?_, ?_⟩
  · intro v hv
    simp [integrateVertex, hv, damping, gravity]
  · intro v hv
    simp [integrateVertex, hv]
  · intro dt s
    unfold DressingRoom.update
    simp [List.range_succ, Function.iterate_succ_apply']
  · intro dt₁ dt₂ s
    rfl

/-- Witness for C3 on concrete free and pinned vertices. -/
theorem c3_integration_phase_witness :
    (integrateVertex wVertexB =
      ⟨Vec3.add (Vec3.add wVertexB.position
          (Vec3.smul 0.98 (Vec3.sub wVertexB.position wVertexB.previousPosition)))
         ⟨0, -0.0005, 0⟩,
       wVertexB.position,
       Vec3.smul 0.98 (Vec3.sub wVertexB.position wVertexB.previousPosition),
       false, wVertexB.mass⟩) ∧
    (integrateVertex ⟨⟨2, 3, 4⟩, ⟨0, 0, 0⟩, ⟨0, 0, 0⟩, true, 1⟩ =
      ⟨⟨2, 3, 4⟩, ⟨0, 0, 0⟩, ⟨0, 0, 0⟩, true, 1⟩) :=
  ⟨c3_integration_phase.1 wVertexB rfl,
   c3_integration_phase.2.1 ⟨⟨2, 3, 4⟩, ⟨0, 0, 0⟩, ⟨0, 0, 0⟩, true, 1⟩ rfl⟩

/-- Length of a nested-loop vertex list whose inner loops all have the
same length. -/
lemma length_flatMap_const {α β : Type} (l : List α) (f : α → List β) (n : ℕ)
    (h : ∀ a ∈ l, (f a).length = n) : (l.flatMap f).length = l.length * n := by
  induction l with
  | nil => simp
  | cons a l ih =>
    have ha : (f a).length = n := h a (by simp)
    have ih2 := ih fun x hx => h x (by simp [hx])
    simp [List.flatMap_cons, ha, ih2, Nat.succ_mul, Nat.add_comm]

/-- Length of a grid built as a flatMap of maps over ranges. -/
lemma length_range_flatMap_map {beta : Type} (m n : Nat) (f : Nat -> Nat -> beta) :
    (((List.range m).flatMap fun y => (List.range n).map (f y))).length = m * n := by
  rw [length_flatMap_const _ _ n ?hinner]
  case hinner => intro a _; rw [List.length_map, List.length_range]
  rw [List.length_range]

lemma shirtVertices_length : shirtVertices.length = 13 * 11 := by
  unfold shirtVertices
  rw [length_range_flatMap_map]

lemma pantsVertices_length : pantsVertices.length = 2 * (7 * 13) := by
  unfold pantsVertices
  rw [List.length_append, length_range_flatMap_map, length_range_flatMap_map]

lemma skirtVertices_length : skirtVertices.length = 15 * 11 := by
  unfold skirtVertices
  rw [length_range_flatMap_map]

set_option maxRecDepth 8000

/-- C4: the generated geometry has exactly the grid-formula vertex and
triangle counts — shirt 13 by 11 vertices and 12 by 10 by 2 triangles,
pants 2 by (7 by 13) vertices and 2 by (6 by 12 by 2) triangles, skirt
15 by 11 vertices and 14 by 10 by 2 triangles — and every grid cell is
triangulated as (a, c, b) and (b, c, d) with a = row * stride + x,
b = a + 1, c = a + stride, d = c + 1 (the second pants leg offset by
91). -/
theorem c4_geometry_counts :
    createShirtGeometry.positions.length = 13 * 11 ∧
    createShirtGeometry.indices.length = 3 * (12 * 10 * 2) ∧
    createShirtGeometry.indices = ((List.range 10).flatMap fun row =>
      (List.range 12).flatMap fun x =>
        [row * 13 + x, row * 13 + x + 13, row * 13 + x + 1,
         row * 13 + x + 1, row * 13 + x + 13, row * 13 + x + 14]) ∧
    createPantsGeometry.positions.length = 2 * (7 * 13) ∧
    createPantsGeometry.indices.length = 3 * (2 * (6 * 12 * 2)) ∧
    createPantsGeometry.indices = ((List.range 2).flatMap fun leg =>
      (List.range 12).flatMap fun row =>
        (List.range 6).flatMap fun x =>
          [leg * 91 + row * 7 + x, leg * 91 + row * 7 + x + 7, leg * 91 + row * 7 + x + 1,
           leg * 91 + row * 7 + x + 1, leg * 91 + row * 7 + x + 7,
           leg * 91 + row * 7 + x + 8]) ∧
    createSkirtGeometry.positions.length = 15 * 11 ∧
    createSkirtGeometry.indices.length = 3 * (14 * 10 * 2) ∧
    createSkirtGeometry.indices = ((List.range 10).flatMap fun row =>
      (List.range 14).flatMap fun x =>
        [row * 15 + x, row * 15 + x + 15, row * 15 + x + 1,
         row * 15 + x + 1, row * 15 + x + 15, row * 15 + x + 16]) :=
  ⟨shirtVertices_length, by decide, by decide,
   pantsVertices_length, by decide, by decide,
   skirtVertices_length, by decide, by decide⟩

/-- C9: the garment geometry factory is a pure function of the garment
type — two calls with equal types yield element-for-element identical
position, UV and index arrays. -/
theorem c9_factory_deterministic (t₁ t₂ : GarmentType) (h : t₁ = t₂) :
    (createGarmentGeometry t₁).positions = (createGarmentGeometry t₂).positions ∧
    (createGarmentGeometry t₁).uvs = (createGarmentGeometry t₂).uvs ∧
    (createGarmentGeometry t₁).indices = (createGarmentGeometry t₂).indices := by
  subst h
  exact ⟨rfl, rfl, rfl⟩

/-- Witness for C9 at the shirt type. -/
theorem c9_factory_deterministic_witness :
    (createGarmentGeometry GarmentType.shirt).positions =
      (createGarmentGeometry GarmentType.shirt).positions ∧
    (createGarmentGeometry GarmentType.shirt).uvs =
      (createGarmentGeometry GarmentType.shirt).uvs ∧
    (createGarmentGeometry GarmentType.shirt).indices =
      (createGarmentGeometry GarmentType.shirt).indices :=
  c9_factory_deterministic GarmentType.shirt GarmentType.shirt rfl

/-- Halving the sum of two vectors averages each coordinate. -/
lemma half_add_eq_avg (u v : Vec3) :
    Vec3.smul 0.5 (Vec3.add u v) =
      ⟨(u.x + v.x) / 2, (u.y + v.y) / 2, (u.z + v.z) / 2⟩ := by
  unfold Vec3.smul Vec3.add
  simp only [Vec3.mk.injEq]
  refine ⟨by ring, by ring, by ring⟩

/-- C5: for every 33-landmark frame passing the upstream visibility gate,
the skeleton builder computes shoulder-center and hip-center as exact
arithmetic midpoints of the left/right shoulder and left/right hip
landmarks: each coordinate is the average of the two corresponding
coordinates, both in landmark space (`extractSkeleton`) and after the 3D
conversion (`createSkeleton3D`, whose spine bone carries the converted
shoulder center and its distance to the converted hip center). -/
theorem c5_skeleton_midpoints (lms : List PoseLandmark) (w h : ℝ)
    (_h33 : lms.length = 33) (_hvalid : isPoseValid lms) :
    ((extractSkeleton lms).shoulders.center.x =
        ((lmAt lms LEFT_SHOULDER).x + (lmAt lms RIGHT_SHOULDER).x) / 2 ∧
      (extractSkeleton lms).shoulders.center.y =
        ((lmAt lms LEFT_SHOULDER).y + (lmAt lms RIGHT_SHOULDER).y) / 2 ∧
      (extractSkeleton lms).shoulders.center.z =
        ((lmAt lms LEFT_SHOULDER).z + (lmAt lms RIGHT_SHOULDER).z) / 2) ∧
    ((extractSkeleton lms).hips.center.x =
        ((lmAt lms LEFT_HIP).x + (lmAt lms RIGHT_HIP).x) / 2 ∧
      (extractSkeleton lms).hips.center.y =
        ((lmAt lms LEFT_HIP).y + (lmAt lms RIGHT_HIP).y) / 2 ∧
      (extractSkeleton lms).hips.center.z =
        ((lmAt lms LEFT_HIP).z + (lmAt lms RIGHT_HIP).z) / 2) ∧
    ((createSkeleton3D lms w h).spine.position =
      ⟨((landmarkToVector3 (lmAt lms LEFT_SHOULDER) w h 2).x +
          (landmarkToVector3 (lmAt lms RIGHT_SHOULDER) w h 2).x) / 2,
        ((landmarkToVector3 (lmAt lms LEFT_SHOULDER) w h 2).y +
          (landmarkToVector3 (lmAt lms RIGHT_SHOULDER) w h 2).y) / 2,
        ((landmarkToVector3 (lmAt lms LEFT_SHOULDER) w h 2).z +
          (landmarkToVector3 (lmAt lms RIGHT_SHOULDER) w h 2).z) / 2⟩) ∧
    ((createSkeleton3D lms w h).spine.length =
      Vec3.distanceTo
        ⟨((landmarkToVector3 (lmAt lms LEFT_SHOULDER) w h 2).x +
            (landmarkToVector3 (lmAt lms RIGHT_SHOULDER) w h 2).x) / 2,
          ((landmarkToVector3 (lmAt lms LEFT_SHOULDER) w h 2).y +
            (landmarkToVector3 (lmAt lms RIGHT_SHOULDER) w h 2).y) / 2,
          ((landmarkToVector3 (lmAt lms LEFT_SHOULDER) w h 2).z +
            (landmarkToVector3 (lmAt lms RIGHT_SHOULDER) w h 2).z) / 2⟩
        ⟨((landmarkToVector3 (lmAt lms LEFT_HIP) w h 2).x +
            (landmarkToVector3 (lmAt lms RIGHT_HIP) w h 2).x) / 2,
          ((landmarkToVector3 (lmAt lms LEFT_HIP) w h 2).y +
            (landmarkToVector3 (lmAt lms RIGHT_HIP) w h 2).y) / 2,
          ((landmarkToVector3 (lmAt lms LEFT_HIP) w h 2).z +
            (landmarkToVector3 (lmAt lms RIGHT_HIP) w h 2).z) / 2⟩) := by
  refine ⟨?_, ?_, ?_, ?_⟩
  · unfold extractSkeleton getMidpoint
    exact ⟨rfl, rfl, rfl⟩
  · unfold extractSkeleton getMidpoint
    exact ⟨rfl, rfl, rfl⟩
  · show Vec3.smul 0.5 (Vec3.add _ _) = _
    rw [half_add_eq_avg]
    rfl
  · show Vec3.distanceTo (Vec3.smul 0.5 (Vec3.add _ _)) (Vec3.smul 0.5 (Vec3.add _ _)) = _
    rw [half_add_eq_avg, half_add_eq_avg]
    rfl

/-- Witness for C5 on a concrete fully visible 33-landmark frame. -/
theorem c5_skeleton_midpoints_witness :
    (extractSkeleton wLms).shoulders.center.x =
      ((lmAt wLms LEFT_SHOULDER).x + (lmAt wLms RIGHT_SHOULDER).x) / 2 ∧
    (extractSkeleton wLms).hips.center.x =
      ((lmAt wLms LEFT_HIP).x + (lmAt wLms RIGHT_HIP).x) / 2 ∧
    (createSkeleton3D wLms 640 480).spine.position =
      ⟨((landmarkToVector3 (lmAt wLms LEFT_SHOULDER) 640 480 2).x +
          (landmarkToVector3 (lmAt wLms RIGHT_SHOULDER) 640 480 2).x) / 2,
        ((landmarkToVector3 (lmAt wLms LEFT_SHOULDER) 640 480 2).y +
          (landmarkToVector3 (lmAt wLms RIGHT_SHOULDER) 640 480 2).y) / 2,
        ((landmarkToVector3 (lmAt wLms LEFT_SHOULDER) 640 480 2).z +
          (landmarkToVector3 (lmAt wLms RIGHT_SHOULDER) 640 480 2).z) / 2⟩ := by
  have h33 : wLms.length = 33 := by simp [wLms]
  have hvalid : isPoseValid wLms := by
    intro i hi
    fin_cases hi <;>
      simp [wLms, wLm, LEFT_SHOULDER, RIGHT_SHOULDER, LEFT_HIP, RIGHT_HIP,
        List.getElem?_replicate] <;> norm_num
  obtain ⟨hs, hh, hp, _⟩ := c5_skeleton_midpoints wLms 640 480 h33 hvalid
  exact ⟨hs.1, hh.1, hp⟩

/-- C6: pants placement puts the garment origin at the hip center lowered
by exactly 0.12 at depth z = 0.1, estimates the leg length as twice the
longer thigh, scales by (hip width times 2, leg length times 1.25, 1),
and pins the top 7 vertices by linear interpolation of x along the hip
line (y from the left hip, z from the mesh depth). -/
theorem c6_pants_placement (sk : Skeleton3D) (n : ℕ) (hn : 7 ≤ n) :
    (updatePantsFromSkeleton sk n).position =
      ⟨(sk.leftLeg.hip.position.x + sk.rightLeg.hip.position.x) / 2,
        (sk.leftLeg.hip.position.y + sk.rightLeg.hip.position.y) / 2 - 0.12, 0.1⟩ ∧
    (updatePantsFromSkeleton sk n).scale =
      ⟨2 * Vec3.distanceTo sk.leftLeg.hip.position sk.rightLeg.hip.position,
        1.25 * (2 * max (Vec3.distanceTo sk.leftLeg.hip.position sk.leftLeg.knee.position)
          (Vec3.distanceTo sk.rightLeg.hip.position sk.rightLeg.knee.position)), 1⟩ ∧
    (updatePantsFromSkeleton sk n).pins =
      (List.range 7).map fun (i : ℕ) =>
        (i, (⟨(1 - (i : ℝ) / 6) * sk.leftLeg.hip.position.x +
              ((i : ℝ) / 6) * sk.rightLeg.hip.position.x,
            sk.leftLeg.hip.position.y, 0.1⟩ : Vec3)) := by
  unfold updatePantsFromSkeleton
  dsimp only [placementGridWidth]
  refine ⟨?_, ?_, ?_⟩
  · rw [half_add_eq_avg]
  · simp only [Vec3.mk.injEq, and_true, true_and]
    refine ⟨by ring, by ring⟩
  · rw [Nat.min_eq_left hn]
    apply List.map_congr_left
    intro i _
    have h7 : ((7 : ℕ) : ℝ) - 1 = 6 := by norm_num
    rw [h7]
    simp only [Prod.mk.injEq, Vec3.mk.injEq, true_and, and_true]
    ring

/-- Witness for C6 on a concrete skeleton with the pants vertex count
182. -/
theorem c6_pants_placement_witness :
    (updatePantsFromSkeleton wSkeleton 182).position =
      ⟨(wSkeleton.leftLeg.hip.position.x + wSkeleton.rightLeg.hip.position.x) / 2,
        (wSkeleton.leftLeg.hip.position.y + wSkeleton.rightLeg.hip.position.y) / 2 - 0.12,
        0.1⟩ ∧
    (updatePantsFromSkeleton wSkeleton 182).scale =
      ⟨2 * Vec3.distanceTo wSkeleton.leftLeg.hip.position wSkeleton.rightLeg.hip.position,
        1.25 * (2 * max
          (Vec3.distanceTo wSkeleton.leftLeg.hip.position wSkeleton.leftLeg.knee.position)
          (Vec3.distanceTo wSkeleton.rightLeg.hip.position wSkeleton.rightLeg.knee.position)),
        1⟩ ∧
    (updatePantsFromSkeleton wSkeleton 182).pins =
      (List.range 7).map fun (i : ℕ) =>
        (i, (⟨(1 - (i : ℝ) / 6) * wSkeleton.leftLeg.hip.position.x +
              ((i : ℝ) / 6) * wSkeleton.rightLeg.hip.position.x,
            wSkeleton.leftLeg.hip.position.y, 0.1⟩ : Vec3)) :=
  c6_pants_placement wSkeleton 182 (by norm_num)

/-- C7: evaluation of the extraction pipeline at the failing input — a
page at `https://shop.example.com/item` whose og:image content is the
root-relative URL `/images/p.png`.  The og pattern does capture the
candidate, but the pre-validation rejects every root-relative URL (it
requires an http, https or protocol-relative prefix), so the
origin-resolution branch is unreachable, the meta-pattern loop yields
nothing, and the handler falls back to fetching the page URL itself —
although resolving against the origin (as the unreachable branch and the
spec intend) would have produced a valid absolute image URL. -/
theorem c7_root_relative_never_resolved :
    runPattern ogImagePattern
      "<meta property=\"og:image\" content=\"/images/p.png\">".data =
      some "/images/p.png".data ∧
    isValidImageUrl "/images/p.png".data = false ∧
    pickFromPatterns "https://shop.example.com/item".data
      "<meta property=\"og:image\" content=\"/images/p.png\">".data = none ∧
    finalImageUrl (fun _ => none) "https://shop.example.com/item".data
      "<meta property=\"og:image\" content=\"/images/p.png\">".data =
      "https://shop.example.com/item".data ∧
    resolveCandidate "https://shop.example.com/item".data "/images/p.png".data =
      "https://shop.example.com/images/p.png".data ∧
    isValidImageUrl "https://shop.example.com/images/p.png".data = true := by
  refine ⟨?_, ?_, ?_, ?_, ?_, ?_⟩ <;> decide

/-- C8 (amended): whenever the first (property-first Open Graph) pattern
captures a candidate that passes the validator, and its resolution also
passes the validator and differs from the page URL itself, the handler
selects exactly that og:image URL — the Open Graph pattern heads the
pattern list, so Twitter, marketplace and lazy-load patterns cannot
override it — and the JSON-LD fallback is not consulted (the result is
the same for every possible JSON-LD outcome); the successful response
body is a data URL prefixed with the fetched image declared
content-type. -/
theorem c8_og_selected_before_jsonld :
    (∀ (url html raw : List Char) (jsonLd : List Char → Option (List Char)),
      runPattern ogImagePattern html = some raw →
      isValidImageUrl (trimL raw) = true →
      isValidImageUrl (resolveCandidate url (trimL raw)) = true →
      resolveCandidate url (trimL raw) ≠ url →
      pickFromPatterns url html = some (resolveCandidate url (trimL raw)) ∧
      finalImageUrl jsonLd url html = resolveCandidate url (trimL raw)) ∧
    (∀ (ct : List Char) (bytes : List ℕ), ct ≠ [] →
      buildDataUrl (contentTypeOrDefault (some ct)) bytes =
        ("data:".data ++ ct ++ ";base64,".data) ++ base64Encode bytes) := by
  constructor
  · intro url html raw jsonLd hmatch hvalid hvalid2 hne
    have hf : (runPattern ogImagePattern html).bind (tryCandidate url) =
        some (resolveCandidate url (trimL raw)) := by
      rw [hmatch]
      show tryCandidate url raw = _
      unfold tryCandidate
      simp only [hvalid, hvalid2, if_true]
    have hpick : pickFromPatterns url html = some (resolveCandidate url (trimL raw)) := by
      show (ogImagePattern :: _).findSome? _ = _
      rw [List.findSome?_cons, hf]
    refine ⟨hpick, ?_⟩
    unfold finalImageUrl
    rw [hpick]
    simp only [Option.getD_some]
    simp [hne]
  · intro ct bytes hct
    have hempty : ct.isEmpty = false := by
      cases ct with
      | nil => exact absurd rfl hct
      | cons a l => rfl
    unfold buildDataUrl contentTypeOrDefault
    simp [hempty, List.append_assoc]

/-- Witness for C8 on a concrete product page with an absolute og:image
URL and a concrete declared content-type. -/
theorem c8_og_selected_before_jsonld_witness :
    (pickFromPatterns "https://shop.example.com/item".data
        "<meta property=\"og:image\" content=\"https://img.example.com/p.png\">".data =
      some (resolveCandidate "https://shop.example.com/item".data
        (trimL "https://img.example.com/p.png".data)) ∧
      finalImageUrl (fun _ => none) "https://shop.example.com/item".data
        "<meta property=\"og:image\" content=\"https://img.example.com/p.png\">".data =
        resolveCandidate "https://shop.example.com/item".data
          (trimL "https://img.example.com/p.png".data)) ∧
    buildDataUrl (contentTypeOrDefault (some "image/png".data)) [137, 80] =
      ("data:".data ++ "image/png".data ++ ";base64,".data) ++ base64Encode [137, 80] :=
  ⟨c8_og_selected_before_jsonld.1 "https://shop.example.com/item".data
      "<meta property=\"og:image\" content=\"https://img.example.com/p.png\">".data
      "https://img.example.com/p.png".data (fun _ => none)
      (by decide) (by decide) (by decide) (by decide),
   c8_og_selected_before_jsonld.2 "image/png".data [137, 80] (by decide)⟩

/-- C8 counterexample: a page whose valid og:image content is the page
URL itself.  The meta-pattern loop selects it, but since the selected
URL equals the page URL the guard `imageUrl === url` still holds, so the
JSON-LD fallback runs and can override the og:image selection — against
the claim that JSON-LD is never consulted when an og:image is present. -/
theorem c8_og_equal_url_consults_jsonld :
    pickFromPatterns "https://images.example.com/page".data
      "<meta property=\"og:image\" content=\"https://images.example.com/page\">".data =
      some "https://images.example.com/page".data ∧
    isValidImageUrl "https://images.example.com/page".data = true ∧
    consultsJsonLd "https://images.example.com/page".data
      "<meta property=\"og:image\" content=\"https://images.example.com/page\">".data =
      true ∧
    finalImageUrl (fun _ => some "https://cdn.example.com/z.png".data)
      "https://images.example.com/page".data
      "<meta property=\"og:image\" content=\"https://images.example.com/page\">".data =
      "https://cdn.example.com/z.png".data ∧
    "https://cdn.example.com/z.png".data ≠ "https://images.example.com/page".data := by
  refine ⟨?_, ?_, ?_, ?_, ?_⟩ <;> decide

/-- C10 (amended): `unpinVertex(i)` changes only the pinned flag of
vertex `i` — its position, previousPosition, velocity and mass are
unchanged, and no other vertex and no constraint is modified — so the
freed vertex resumes integration from its last pinned position; its
implied velocity on the next update is `(position - previousPosition) *
0.98`, determined by the pre-pin `previousPosition` (not necessarily
zero). -/
theorem c10_unpin_only_pinned_flag (s : ClothState) (i : ℕ)
    (h : i < s.vertices.length) :
    (unpinVertex s i).constraints = s.constraints ∧
    (∀ j, j ≠ i → ((unpinVertex s i).vertices)[j]? = s.vertices[j]?) ∧
    ((unpinVertex s i).vertices)[i]? =
      some ⟨(s.vertices.get ⟨i, h⟩).position, (s.vertices.get ⟨i, h⟩).previousPosition,
        (s.vertices.get ⟨i, h⟩).velocity, false, (s.vertices.get ⟨i, h⟩).mass⟩ ∧
    (integrateVertex ⟨(s.vertices.get ⟨i, h⟩).position,
        (s.vertices.get ⟨i, h⟩).previousPosition,
        (s.vertices.get ⟨i, h⟩).velocity, false, (s.vertices.get ⟨i, h⟩).mass⟩).velocity =
      Vec3.smul 0.98 (Vec3.sub (s.vertices.get ⟨i, h⟩).position
        (s.vertices.get ⟨i, h⟩).previousPosition) := by
  unfold DressingRoom.unpinVertex
  rw [dif_pos h]
  refine ⟨rfl, fun j hj => List.getElem?_set_ne (fun hh => hj hh.symm), ?_, ?_⟩
  · rw [List.getElem?_set_self (by simpa using h)]
  · simp [integrateVertex, damping]

/-- Witness for C10 on the concrete two-vertex state. -/
theorem c10_unpin_only_pinned_flag_witness :
    (unpinVertex wState 0).constraints = wState.constraints ∧
    (∀ j, j ≠ 0 → ((unpinVertex wState 0).vertices)[j]? = wState.vertices[j]?) ∧
    ((unpinVertex wState 0).vertices)[0]? =
      some ⟨(wState.vertices.get ⟨0, by simp [wState]⟩).position,
        (wState.vertices.get ⟨0, by simp [wState]⟩).previousPosition,
        (wState.vertices.get ⟨0, by simp [wState]⟩).velocity, false,
        (wState.vertices.get ⟨0, by simp [wState]⟩).mass⟩ ∧
    (integrateVertex ⟨(wState.vertices.get ⟨0, by simp [wState]⟩).position,
        (wState.vertices.get ⟨0, by simp [wState]⟩).previousPosition,
        (wState.vertices.get ⟨0, by simp [wState]⟩).velocity, false,
        (wState.vertices.get ⟨0, by simp [wState]⟩).mass⟩).velocity =
      Vec3.smul 0.98 (Vec3.sub (wState.vertices.get ⟨0, by simp [wState]⟩).position
        (wState.vertices.get ⟨0, by simp [wState]⟩).previousPosition) :=
  c10_unpin_only_pinned_flag wState 0 (by simp [wState])

/-- C10 counterexample: a vertex whose pre-pin rest position is the
origin is pinned at (1, 0, 0) and then unpinned; on the next update its
Verlet-implied velocity is 0.98 times (pinned position minus pre-pin
previous position), which is not zero — refuting the clause that a freed
vertex resumes with zero implied velocity. -/
theorem c10_zero_velocity_counterexample :
    (((update (1/60) (unpinVertex (pinVertex wUnpinState 0 ⟨1, 0, 0⟩) 0)).vertices.getD 0
        wVertexA).velocity =
      Vec3.smul 0.98 (Vec3.sub ⟨1, 0, 0⟩ ⟨0, 0, 0⟩)) ∧
    ¬ (((update (1/60) (unpinVertex (pinVertex wUnpinState 0 ⟨1, 0, 0⟩) 0)).vertices.getD 0
        wVertexA).velocity = ⟨0, 0, 0⟩) := by
  constructor
  · rfl
  · intro heq
    have hx := congrArg Vec3.x heq
    have : ((0.98 : ℝ) * (1 - 0)) = 0 := hx
    norm_num at this

end DressingRoom
